import Mathlib

/-!
Verification development for the ipcz router/route-reduction subsystem.

The definitions below are a shallow embedding of the Router state machine
from `src/unnamed/part_001` (the authoritative `router.cc`; the earlier
prototype in `src/unnamed/part_000` is superseded) together with the
collaborating components it uses.  `ParcelQueue`, `RouteEdge` and
`RouterLinkState` are not present under `src/`, so they are modelled from
the specification's data-model section; every such definition carries a
doc comment starting with `Modelled from the spec:`.

Sequence numbers are unsigned monotonic 64-bit counters in the source; they
are represented as `Nat` here, since no modelled operation can overflow or
wrap them (they only ever grow by small increments from 0).

Stateful C++ methods become pure functions returning the updated state
together with a list of emitted `Event`s; an `Event` records a call the
Router makes on a `RouterLink` after releasing its mutex (parcel
transmission, closure propagation, deactivation, trap updates and the
cross-router bypass coordination entry points).
-/

namespace Ipcz

/-- Result codes used by the modelled Router operations (`IpczResult`). -/
inductive IpczResult where
  | ok
  | invalidArgument
  | failedPrecondition
  | notFound
  | unavailable
  | resourceExhausted
  | outOfRange
  deriving DecidableEq, Repr

/-- `LinkType`: one of central, peripheral inward, peripheral outward, bridge. -/
inductive LinkTypeM where
  | central
  | peripheralInward
  | peripheralOutward
  | bridge
  deriving DecidableEq, Repr

namespace LinkTypeM

/-- `LinkType::is_outward()`: central or peripheral-outward. -/
def isOutward : LinkTypeM → Bool
  | central => true
  | peripheralOutward => true
  | _ => false

/-- `LinkType::is_peripheral_inward()`. -/
def isPeripheralInward : LinkTypeM → Bool
  | peripheralInward => true
  | _ => false

/-- `LinkType::is_central()`. -/
def isCentral : LinkTypeM → Bool
  | central => true
  | _ => false

/-- `LinkType::is_bridge()`. -/
def isBridge : LinkTypeM → Bool
  | bridge => true
  | _ => false

end LinkTypeM

/-- `LinkSide`: A or B. -/
inductive LinkSide where
  | A
  | B
  deriving DecidableEq, Repr

/-- A parcel: a sequence number, opaque data (tracked by size) and a number
of attached objects.  `dataSize`/`numObjects` shrink under partial
consumption, mirroring `Parcel::Consume`. -/
structure Parcel where
  seq : Nat
  dataSize : Nat
  numObjects : Nat
  deriving DecidableEq, Repr

/-- Modelled from the spec: `ParcelQueue`, a sparse in-order buffer keyed by
SequenceNumber.  `current` is the smallest sequence number not yet popped,
`entries` the queued parcels keyed by sequence number, `finalLength` the
optional final sequence length.  (`parcel_queue.h` / `sequenced_queue.h`
are not under `src/`.) -/
structure ParcelQueue where
  current : Nat
  entries : List (Nat × Parcel)
  finalLength : Option Nat
  deriving DecidableEq, Repr

namespace ParcelQueue

/-- A fresh queue starting at sequence number 0. -/
def init : ParcelQueue := { current := 0, entries := [], finalLength := none }

/-- Look up the parcel queued at sequence number `n`, if any. -/
def lookup (q : ParcelQueue) (n : Nat) : Option Parcel :=
  (q.entries.find? (fun e => e.1 = n)).map (·.2)

/-- Modelled from the spec: `push(n, parcel)` succeeds only if
`n ≥ current_sequence_number`, `n` has not been pushed, and (when a final
length `F` is set) `n < F`.  Returns `none` on failure. -/
def push (q : ParcelQueue) (n : Nat) (p : Parcel) : Option ParcelQueue :=
  if n < q.current then none
  else if (q.lookup n).isSome then none
  else if (q.finalLength.map (fun F => decide (F ≤ n))).getD false then none
  else some { q with entries := (n, p) :: q.entries }

/-- `has_next_element()`: the parcel at `current_sequence_number` is present. -/
def hasNextElement (q : ParcelQueue) : Bool :=
  (q.lookup q.current).isSome

/-- `NextElement()`: the parcel at the head of the queue (a dummy parcel if
absent; the source only calls this after `HasNextElement()`). -/
def nextElement (q : ParcelQueue) : Parcel :=
  (q.lookup q.current).getD { seq := q.current, dataSize := 0, numObjects := 0 }

/-- `Pop()`: remove the parcel at `current_sequence_number` and advance.
Returns `none` if there is no next element. -/
def pop (q : ParcelQueue) : Option (Parcel × ParcelQueue) :=
  match q.lookup q.current with
  | none => none
  | some p =>
      some (p, { q with
                   current := q.current + 1,
                   entries := q.entries.filter (fun e => ¬ e.1 = q.current) })

/-- Modelled from the spec: `maybe_skip_sequence_number(n)`: if the queue is
empty and `current_sequence_number == n`, advance to `n + 1` and return the
updated queue; else `none`. -/
def maybeSkipSequenceNumber (q : ParcelQueue) (n : Nat) : Option ParcelQueue :=
  if q.entries.isEmpty ∧ q.current = n then
    some { q with current := n + 1 }
  else
    none

/-- Modelled from the spec: `set_final_sequence_length(F)` may succeed at
most once; it is rejected if a parcel with sequence number `≥ F` is already
queued, or if `F` precedes `current_sequence_number` (numbers below
`current` have already arrived, so recording `F` would be false). -/
def setFinalSequenceLength (q : ParcelQueue) (F : Nat) : Option ParcelQueue :=
  if q.finalLength.isSome then none
  else if F < q.current then none
  else if q.entries.any (fun e => F ≤ e.1) then none
  else some { q with finalLength := some F }

/-- Modelled from the spec: `force_terminate_sequence()` sets the final
length to `current_sequence_number`, discarding any sparse future-held
parcels. -/
def forceTerminateSequence (q : ParcelQueue) : ParcelQueue :=
  { q with finalLength := some q.current, entries := [] }

/-- `is_sequence_fully_consumed()` ⇔ final length set and everything up to
it was popped. -/
def isSequenceFullyConsumed (q : ParcelQueue) : Bool :=
  match q.finalLength with
  | some F => F ≤ q.current
  | none => false

/-- Count of contiguously available elements starting at `n`, with explicit
fuel (the contiguous run never exceeds the number of entries). -/
def availableFrom (q : ParcelQueue) : Nat → Nat → List Parcel
  | 0, _ => []
  | fuel + 1, n =>
      match q.lookup n with
      | some p => p :: q.availableFrom fuel (n + 1)
      | none => []

/-- The contiguous run of queued parcels starting at `current`. -/
def availableRun (q : ParcelQueue) : List Parcel :=
  q.availableFrom q.entries.length q.current

/-- `GetNumAvailableElements()`: number of contiguously available elements
starting at `current_sequence_number`. -/
def getNumAvailableElements (q : ParcelQueue) : Nat :=
  q.availableRun.length

/-- `GetTotalAvailableElementSize()`: total data size of the contiguously
available elements. -/
def getTotalAvailableElementSize (q : ParcelQueue) : Nat :=
  (q.availableRun.map Parcel.dataSize).sum

/-- `GetCurrentSequenceLength()`: `current_sequence_number` plus the number
of contiguously available elements. -/
def getCurrentSequenceLength (q : ParcelQueue) : Nat :=
  q.current + q.getNumAvailableElements

/-- `expects_more_elements()` ⇔ final length not set, or not yet reached by
the received sequence. -/
def expectsMoreElements (q : ParcelQueue) : Bool :=
  match q.finalLength with
  | some F => q.getCurrentSequenceLength < F
  | none => true

/-- `Consume(num_bytes, handles)`: consume `nb` data bytes and `nh` objects
from the head parcel; pop it once it holds no more data and no more
objects.  Returns `none` when there is no next element. -/
def consume (q : ParcelQueue) (nb nh : Nat) : Option ParcelQueue :=
  match q.lookup q.current with
  | none => none
  | some p =>
      let p' : Parcel :=
        { p with dataSize := p.dataSize - nb, numObjects := p.numObjects - nh }
      if p'.dataSize = 0 ∧ p'.numObjects = 0 then
        some { q with
                 current := q.current + 1,
                 entries := q.entries.filter (fun e => ¬ e.1 = q.current) }
      else
        some { q with
                 entries :=
                   (q.current, p') ::
                     q.entries.filter (fun e => ¬ e.1 = q.current) }

/-- `ResetInitialSequenceNumber(n)` (used on a freshly created queue during
deserialization): start the sequence at `n`. -/
def resetInitialSequenceNumber (q : ParcelQueue) (n : Nat) : ParcelQueue :=
  { q with current := n }

/-- Well-formedness of a queue: every queued entry is at or beyond
`current`, and below the final length when one is set. -/
def WF (q : ParcelQueue) : Prop :=
  (∀ e ∈ q.entries, q.current ≤ e.1) ∧
    (∀ F, q.finalLength = some F → (q.current ≤ F ∧ ∀ e ∈ q.entries, e.1 < F))

instance (q : ParcelQueue) : Decidable q.WF := by
  unfold WF; infer_instance

end ParcelQueue

/-- Modelled from the spec: `RouterLinkState`, the shared record attached to
a central link: a stability bit per side (monotonic once set) and a lock
that at most one side holds at a time.  (`router_link_state.h/.cc` are not
under `src/`; the bypass-authorization token is omitted since no modelled
claim reads it.) -/
structure RouterLinkState where
  sideStableA : Bool
  sideStableB : Bool
  lockedBy : Option LinkSide
  peerMonitoring : Bool
  deriving DecidableEq, Repr

namespace RouterLinkState

/-- Modelled from the spec: `TryLock` (used by both `try_lock_for_closure`
and `try_lock_for_bypass`) succeeds only when both sides are stable and the
lock is free; success records the locking side. -/
def tryLock (s : RouterLinkState) (side : LinkSide) : Option RouterLinkState :=
  if s.sideStableA ∧ s.sideStableB ∧ s.lockedBy.isNone then
    some { s with lockedBy := some side }
  else
    none

/-- `SetSideStable(side)`: set this side's (monotonic) stability bit. -/
def setSideStable (s : RouterLinkState) (side : LinkSide) : RouterLinkState :=
  match side with
  | .A => { s with sideStableA := true }
  | .B => { s with sideStableB := true }

end RouterLinkState

/-- A router link as observed by one Router: its identity (`lid`), type,
this router's side, the shared state (for central links), and the local
peer router's id when the link is a `LocalRouterLink`
(`GetLocalPeer() != null`). -/
structure RouterLink where
  lid : Nat
  linkType : LinkTypeM
  side : LinkSide
  state : RouterLinkState
  localPeer : Option Nat
  deriving DecidableEq, Repr

namespace RouterLink

/-- `RouterLink::TryLockForClosure()`:`link_state().TryLock(side)`. -/
def tryLockForClosure (l : RouterLink) : Option RouterLink :=
  (l.state.tryLock l.side).map (fun s => { l with state := s })

/-- `RouterLink::MarkSideStable()`: set this side's stability bit. -/
def markSideStable (l : RouterLink) : RouterLink :=
  { l with state := l.state.setSideStable l.side }

end RouterLink

/-- Modelled from the spec: `RouteEdge`, a pair of an optional primary link
and an optional decaying link with the two decay boundary lengths.
`decayDeferred` records a `begin_primary_link_decay` issued while no
primary link was present: the next primary link set on the edge becomes
the decaying link (used by `SerializeNewRouter`'s pre-decay of the fresh
inward edge).  (`route_edge.h/.cc` are not under `src/`.) -/
structure RouteEdge where
  primaryLink : Option RouterLink
  decayingLink : Option RouterLink
  lengthToDecayingLink : Option Nat
  lengthFromDecayingLink : Option Nat
  decayDeferred : Bool
  deriving DecidableEq, Repr

namespace RouteEdge

/-- A fresh, empty edge. -/
def init : RouteEdge :=
  { primaryLink := none, decayingLink := none,
    lengthToDecayingLink := none, lengthFromDecayingLink := none,
    decayDeferred := false }

/-- `is_stable()`: no decay in progress. -/
def isStable (e : RouteEdge) : Bool :=
  e.decayingLink.isNone ∧ ¬ e.decayDeferred

/-- Modelled from the spec: parcels with sequence number below
`length_to_decaying` (when set) travel on the decaying link; with no
boundary set yet, every parcel does. -/
def shouldTransmitOnDecayingLink (e : RouteEdge) (n : Nat) : Bool :=
  e.decayingLink.isSome ∧
    (e.lengthToDecayingLink.map (fun L => decide (n < L))).getD true

/-- Modelled from the spec: `begin_primary_link_decay` moves the primary
link into the decaying slot; it fails if a decaying link already exists (or
a deferred decay is pending).  With no primary link present the decay is
deferred to the next `SetPrimaryLink`. -/
def beginPrimaryLinkDecay (e : RouteEdge) : Option RouteEdge :=
  if e.decayingLink.isSome ∨ e.decayDeferred then none
  else match e.primaryLink with
    | some l => some { e with primaryLink := none, decayingLink := some l }
    | none => some { e with decayDeferred := true }

/-- `SetPrimaryLink(link)`: adopt `link` as the primary link, or directly as
the decaying link when a deferred decay is pending. -/
def setPrimaryLink (e : RouteEdge) (l : RouterLink) : RouteEdge :=
  if e.decayDeferred then
    { e with decayingLink := some l, decayDeferred := false }
  else
    { e with primaryLink := some l }

/-- `ReleasePrimaryLink()`: detach and return the primary link. -/
def releasePrimaryLink (e : RouteEdge) : Option RouterLink × RouteEdge :=
  (e.primaryLink, { e with primaryLink := none })

/-- `ReleaseDecayingLink()`: detach and return the decaying link. -/
def releaseDecayingLink (e : RouteEdge) : Option RouterLink × RouteEdge :=
  (e.decayingLink, { e with decayingLink := none })

/-- Modelled from the spec: `maybe_finish_decay(sent, received)` drops the
decaying link exactly when it exists and both boundaries are set and
reached.  Returns the updated edge and whether decay finished. -/
def maybeFinishDecay (e : RouteEdge) (sent received : Nat) : RouteEdge × Bool :=
  match e.decayingLink, e.lengthToDecayingLink, e.lengthFromDecayingLink with
  | some _, some lt, some lf =>
      if lt ≤ sent ∧ lf ≤ received then
        ({ e with decayingLink := none,
                  lengthToDecayingLink := none,
                  lengthFromDecayingLink := none }, true)
      else
        (e, false)
  | _, _, _ => (e, false)

/-- `set_length_to_decaying_link`. -/
def setLengthToDecayingLink (e : RouteEdge) (n : Nat) : RouteEdge :=
  { e with lengthToDecayingLink := some n }

/-- `set_length_from_decaying_link`. -/
def setLengthFromDecayingLink (e : RouteEdge) (n : Nat) : RouteEdge :=
  { e with lengthFromDecayingLink := some n }

/-- `GetLocalPeer()`: the primary link's local peer, if any. -/
def getLocalPeer (e : RouteEdge) : Option Nat :=
  e.primaryLink.bind RouterLink.localPeer

end RouteEdge

/-- Reasons passed to `TrapSet::UpdatePortalStatus`. -/
inductive UpdateReason where
  | newLocalParcel
  | peerClosed
  | localParcelConsumed
  | remoteActivity
  deriving DecidableEq, Repr

/-- Calls a Router makes on its links (and the cross-router coordination
entry points reached at the end of `Flush`) after releasing its mutex.
Each event names the target link by its `lid`. -/
inductive Event where
  | acceptParcel (lid : Nat) (p : Parcel)
  | acceptRouteClosure (lid : Nat) (finalLength : Nat)
  | acceptRouteDisconnected (lid : Nat)
  | deactivate (lid : Nat)
  | trapUpdate (reason : UpdateReason)
  | updateInboundQueueState (lid : Nat) (numParcels numBytes : Nat)
  | notifyDataConsumed (lid : Nat)
  | markSideStable (lid : Nat)
  | maybeStartSelfBypass
  | maybeStartBridgeBypass
  | flushOtherSideIfWaiting (lid : Nat)
  deriving DecidableEq, Repr

/-- The per-endpoint Router state guarded by its mutex: the two (three with
a bridge) route-facing edges, the two parcel queues, the portal status
flags and queued counts, the trap registrations (tracked by count; trap
side effects appear as `trapUpdate` events), and the monotonic
disconnection flag.  `rid` identifies the router (standing in for its
address). -/
structure Router where
  rid : Nat
  outwardEdge : RouteEdge
  inwardEdge : Option RouteEdge
  bridge : Option RouteEdge
  outboundParcels : ParcelQueue
  inboundParcels : ParcelQueue
  peerClosed : Bool
  dead : Bool
  numLocalParcels : Nat
  numLocalBytes : Nat
  numTraps : Nat
  isDisconnected : Bool
  deriving DecidableEq, Repr

namespace Router

/-- A freshly constructed terminal Router (as from `Router::Router()`). -/
def fresh (rid : Nat) : Router :=
  { rid := rid
    outwardEdge := RouteEdge.init
    inwardEdge := none
    bridge := none
    outboundParcels := ParcelQueue.init
    inboundParcels := ParcelQueue.init
    peerClosed := false
    dead := false
    numLocalParcels := 0
    numLocalBytes := 0
    numTraps := 0
    isDisconnected := false }

/-- `Router::IsPeerClosed()`. -/
def isPeerClosed (r : Router) : Bool := r.peerClosed

/-- `Router::IsRouteDead()`. -/
def isRouteDead (r : Router) : Bool := r.dead

/-- `Router::HasLocalPeer(router)`: the outward edge's local peer is
`router`. -/
def hasLocalPeer (r : Router) (other : Router) : Bool :=
  r.outwardEdge.getLocalPeer = some other.rid

end Router

/-- The link chosen by `CollectParcelsToFlush` for sequence number `n`:
the decaying link when the edge routes `n` to it, else the primary link
when `n` is past the decay boundary, else none (the parcel is retained). -/
def collectChoice (edge : RouteEdge) (n : Nat) : Option Nat :=
  if edge.decayingLink.isSome ∧ edge.shouldTransmitOnDecayingLink n then
    edge.decayingLink.map RouterLink.lid
  else if edge.primaryLink.isSome ∧
      ¬ edge.shouldTransmitOnDecayingLink n then
    edge.primaryLink.map RouterLink.lid
  else none

/-- One iteration bound for `CollectParcelsToFlush`: each successful pop
removes one queue entry, so the number of entries bounds the loop. -/
def collectGo (edge : RouteEdge) :
    Nat → ParcelQueue → List (Nat × Parcel) → ParcelQueue × List (Nat × Parcel)
  | 0, q, acc => (q, acc)
  | fuel + 1, q, acc =>
      if q.hasNextElement then
        match collectChoice edge q.current with
        | some lid =>
            match q.pop with
            | some (p, q') => collectGo edge fuel q' (acc ++ [(lid, p)])
            | none => (q, acc)
        | none => (q, acc)
      else
        (q, acc)

/-- `CollectParcelsToFlush(queue, edge, parcels)`: pop elements from `queue`
for transmission along `edge` until the queue is exhausted or the next
parcel's required link is not available on the edge.  Returns the drained
queue and the popped parcels tagged with the chosen link's id. -/
def collectParcelsToFlush (q : ParcelQueue) (edge : RouteEdge) :
    ParcelQueue × List (Nat × Parcel) :=
  collectGo edge q.entries.length q []

/-- The bridge link snapshot taken by `Flush`: a bridge edge has either a
primary or a decaying link, but never both. -/
def Router.flushBridgeLink (r : Router) : Option RouterLink :=
  r.bridge.bind (fun b =>
    match b.primaryLink with
    | some l => some l
    | none => b.decayingLink)

/-- The inbound-side phase of `Flush`: on a proxy, collect inbound parcels
through the inward edge and try to finish its decay (against the outbound
queue already drained to `outQ`); on a bridged terminal router, collect
through the bridge.  Returns the drained inbound queue, the collected
parcels, the updated inward edge (when present) and whether the inward
decaying link finished decaying. -/
def Router.flushInwardPart (r : Router) (outQ : ParcelQueue) :
    ParcelQueue × List (Nat × Parcel) × Option RouteEdge × Bool :=
  match r.inwardEdge with
  | some ie =>
      let inCollected := collectParcelsToFlush r.inboundParcels ie
      let inQ := inCollected.1
      let inwardDecay :=
        ie.maybeFinishDecay inQ.current outQ.getCurrentSequenceLength
      (inQ, inCollected.2, some inwardDecay.1, inwardDecay.2)
  | none =>
      match r.flushBridgeLink, r.bridge with
      | some _, some b =>
          let inCollected := collectParcelsToFlush r.inboundParcels b
          (inCollected.1, inCollected.2, none, false)
      | _, _ => (r.inboundParcels, [], none, false)

/-- `Router::Flush(behavior)` from `src/unnamed/part_001:1108`.  The
decision phase under the mutex is translated in full; the work executed
after the mutex is released is returned as the event list, in the source's
order.  The trailing cross-router coordination entry points
(`MaybeStartBridgeBypass`, `MaybeStartSelfBypass`,
`FlushOtherSideIfWaiting`) act on other routers' state and are represented
by the corresponding events at the points where the source invokes them;
none of them writes this router's queues or status flags. -/
def Router.flush (r : Router) (forceBypass : Bool := false) :
    Router × List Event :=
  -- Snapshots of all potentially usable links.
  let outwardLink := r.outwardEdge.primaryLink
  let inwardLink := r.inwardEdge.bind RouteEdge.primaryLink
  let decayingOutwardLink := r.outwardEdge.decayingLink
  let decayingInwardLink := r.inwardEdge.bind RouteEdge.decayingLink
  let onCentralLink :=
    (outwardLink.map (fun l => l.linkType.isCentral)).getD false
  let bridgeLink := r.flushBridgeLink
  -- Outbound collection and outward-edge decay completion.
  let outCollected := collectParcelsToFlush r.outboundParcels r.outwardEdge
  let outQ := outCollected.1
  let outboundSequenceLengthSent := outQ.current
  let inboundSequenceLengthReceived :=
    r.inboundParcels.getCurrentSequenceLength
  let outDecay :=
    r.outwardEdge.maybeFinishDecay outboundSequenceLengthSent
      inboundSequenceLengthReceived
  let owEdge1 := outDecay.1
  let outwardLinkDecayed := outDecay.2
  -- Inbound collection: through the inward edge on a proxy, or through the
  -- bridge on a merged route.
  let inwardPart := r.flushInwardPart outQ
  let inQ := inwardPart.1
  let inFlush := inwardPart.2.1
  let iwEdge1 := inwardPart.2.2.1
  let inwardLinkDecayed := inwardPart.2.2.2
  -- Bridge decay completion.
  let bridge1 : Option RouteEdge :=
    match r.bridge with
    | some b =>
        let bd := b.maybeFinishDecay inQ.current outQ.current
        if bd.2 then none else some bd.1
    | none => none
  -- Dropping the last decaying link may make the outward link stable.
  let inwardEdgeStable := decayingInwardLink.isNone || inwardLinkDecayed
  let outwardEdgeStable :=
    outwardLink.isSome && (decayingOutwardLink.isNone || outwardLinkDecayed)
  let bothEdgesStable := inwardEdgeStable && outwardEdgeStable
  let eitherLinkDecayed := inwardLinkDecayed || outwardLinkDecayed
  let markStable := onCentralLink && eitherLinkDecayed && bothEdgesStable
  let outwardLink1 :=
    if markStable then outwardLink.map RouterLink.markSideStable
    else outwardLink
  let droppedLastDecayingLink := markStable
  let owEdge2 :=
    if markStable then { owEdge1 with primaryLink := outwardLink1 }
    else owEdge1
  -- Route-closure propagation / dead outward link.
  let closureLock : Option RouterLink :=
    if onCentralLink ∧ outQ.isSequenceFullyConsumed then
      match outwardLink1 with
      | some l => l.tryLockForClosure
      | none => none
    else none
  let outwardDecision :
      RouteEdge × Option RouterLink × Option Nat :=
    match closureLock with
    | some locked =>
        ({ owEdge2 with primaryLink := none }, some locked, outQ.finalLength)
    | none =>
        if ¬ inQ.expectsMoreElements then
          ({ owEdge2 with primaryLink := none }, owEdge2.primaryLink, none)
        else
          (owEdge2, none, none)
  let owEdge3 := outwardDecision.1
  let deadOutwardLink := outwardDecision.2.1
  let finalOutwardSequenceLength := outwardDecision.2.2
  -- Inward closure propagation / dead inward or bridge link.
  let inwardDecision :
      Option Nat × Option RouteEdge × Option RouterLink × Option RouteEdge ×
        Option RouterLink :=
    if inQ.isSequenceFullyConsumed then
      match iwEdge1 with
      | some ie =>
          (inQ.finalLength, some { ie with primaryLink := none },
            ie.primaryLink, bridge1, none)
      | none =>
          (inQ.finalLength, none, none, none, bridgeLink)
    else
      (none, iwEdge1, none, bridge1, none)
  let finalInwardSequenceLength := inwardDecision.1
  let iwEdge2 := inwardDecision.2.1
  let deadInwardLink := inwardDecision.2.2.1
  let bridge2 := inwardDecision.2.2.2.1
  let deadBridgeLink := inwardDecision.2.2.2.2
  let r' : Router :=
    { r with
        outwardEdge := owEdge3
        inwardEdge := iwEdge2
        bridge := bridge2
        outboundParcels := outQ
        inboundParcels := inQ }
  -- Work performed after the mutex is released, in source order.
  let evParcels :=
    (outCollected.2 ++ inFlush).map (fun x => Event.acceptParcel x.1 x.2)
  let evOutDecayed :=
    match decayingOutwardLink, outwardLinkDecayed with
    | some l, true => [Event.deactivate l.lid]
    | _, _ => []
  let evInDecayed :=
    match decayingInwardLink, inwardLinkDecayed with
    | some l, true => [Event.deactivate l.lid]
    | _, _ => []
  let evBridgeBypass :=
    if bridgeLink.isSome ∧ outwardLink.isSome ∧ inwardLink.isNone ∧
        decayingInwardLink.isNone ∧ decayingOutwardLink.isNone then
      [Event.maybeStartBridgeBypass]
    else []
  let evDeadOutward :=
    match deadOutwardLink with
    | some l =>
        (match finalOutwardSequenceLength with
         | some F => [Event.acceptRouteClosure l.lid F]
         | none => []) ++ [Event.deactivate l.lid]
    | none => []
  let evDeadInward :=
    match deadInwardLink with
    | some l =>
        (match finalInwardSequenceLength with
         | some F => [Event.acceptRouteClosure l.lid F]
         | none => []) ++ [Event.deactivate l.lid]
    | none => []
  let evDeadBridge :=
    match deadBridgeLink, finalInwardSequenceLength with
    | some l, some F => [Event.acceptRouteClosure l.lid F]
    | _, _ => []
  let evTail :=
    if deadOutwardLink.isSome ∨ ¬ onCentralLink then []
    else if ¬ droppedLastDecayingLink ∧ ¬ forceBypass then []
    else if inwardLink.isSome then [Event.maybeStartSelfBypass]
    else
      match outwardLink with
      | some l => [Event.flushOtherSideIfWaiting l.lid]
      | none => []
  (r', evParcels ++ evOutDecayed ++ evInDecayed ++ evBridgeBypass ++
        evDeadOutward ++ evDeadInward ++ evDeadBridge ++ evTail)

/-- All-clear initial shared link state (fresh, unstable, unlocked). -/
def RouterLinkState.init : RouterLinkState :=
  { sideStableA := false, sideStableB := false, lockedBy := none,
    peerMonitoring := false }

namespace Router

/-- `Router::SendOutboundParcel(parcel)` from `src/unnamed/part_001:126`.
Returns the result, the sequence number assigned to the parcel (`none` when
the call fails), the updated router and the emitted events.  When the
outbound queue rejects the push (its final length is already set), the
source's `ABSL_ASSERT(push_ok)` is violated and, with assertions compiled
out, the parcel is dropped; the model keeps the queue unchanged in that
case, exactly as the source does. -/
def sendOutboundParcel (r : Router) (p : Parcel) :
    IpczResult × Option Nat × Router × List Event :=
  if r.inboundParcels.finalLength.isSome then
    -- If the inbound sequence is finalized, the peer portal must be gone.
    (.notFound, none, r, [])
  else
    let sequenceNumber := r.outboundParcels.getCurrentSequenceLength
    let p := { p with seq := sequenceNumber }
    match r.outwardEdge.primaryLink,
        r.outboundParcels.maybeSkipSequenceNumber sequenceNumber with
    | some link, some q =>
        -- Fast path: transmit directly with no queueing step.
        (.ok, some sequenceNumber, { r with outboundParcels := q },
          [Event.acceptParcel link.lid p])
    | _, _ =>
        let q :=
          (r.outboundParcels.push sequenceNumber p).getD r.outboundParcels
        let flushed := Router.flush { r with outboundParcels := q }
        (.ok, some sequenceNumber, flushed.1, flushed.2)

/-- `Router::CloseRoute()` from `src/unnamed/part_001:162`: finalize the
outbound sequence at its current length, clear all traps, flush. -/
def closeRoute (r : Router) : Router × List Event :=
  let q :=
    (r.outboundParcels.setFinalSequenceLength
        r.outboundParcels.getCurrentSequenceLength).getD r.outboundParcels
  Router.flush { r with outboundParcels := q, numTraps := 0 }

/-- `Router::AcceptInboundParcel(parcel)` from `src/unnamed/part_001:246`.
A push rejected by a finalized sequence is silently accepted. -/
def acceptInboundParcel (r : Router) (p : Parcel) :
    Bool × Router × List Event :=
  match r.inboundParcels.push p.seq p with
  | none => (true, r, [])
  | some q =>
      let r1 := { r with inboundParcels := q }
      let step : Router × List Event :=
        if r1.inwardEdge.isNone then
          -- Terminal router: refresh queued counts and fire traps.
          let nP := q.getNumAvailableElements
          let nB := q.getTotalAvailableElementSize
          let r2 := { r1 with numLocalParcels := nP, numLocalBytes := nB }
          let evs := [Event.trapUpdate .newLocalParcel]
          match r2.outwardEdge.primaryLink with
          | some l =>
              if l.linkType.isCentral then
                (r2, evs ++ [Event.updateInboundQueueState l.lid nP nB])
              else (r2, evs)
          | none => (r2, evs)
        else (r1, [])
      let flushed := Router.flush step.1
      (true, flushed.1, step.2 ++ flushed.2)

/-- `Router::AcceptOutboundParcel(parcel)` from `src/unnamed/part_001:276`:
proxied outbound parcels are always queued, then flushed. -/
def acceptOutboundParcel (r : Router) (p : Parcel) :
    Bool × Router × List Event :=
  match r.outboundParcels.push p.seq p with
  | none => (true, r, [])
  | some q =>
      let flushed := Router.flush { r with outboundParcels := q }
      (true, flushed.1, flushed.2)

/-- `Router::AcceptRouteClosureFrom(link_type, sequence_length)` from
`src/unnamed/part_001:301`. -/
def acceptRouteClosureFrom (r : Router) (linkType : LinkTypeM)
    (sequenceLength : Nat) : Bool × Router × List Event :=
  if linkType.isOutward then
    match r.inboundParcels.setFinalSequenceLength sequenceLength with
    | none =>
        -- Ignore if and only if the sequence was terminated early.
        (r.inboundParcels.finalLength.isSome ∧
           (r.inboundParcels.finalLength.map
              (fun F => decide (F ≤ sequenceLength))).getD false,
          r, [])
    | some q =>
        let r1 := { r with inboundParcels := q }
        let step : Router × List Event :=
          if r1.inwardEdge.isNone ∧ r1.bridge.isNone then
            ({ r1 with
                 peerClosed := true
                 dead := r1.dead || q.isSequenceFullyConsumed },
              [Event.trapUpdate .peerClosed])
          else (r1, [])
        let flushed := Router.flush step.1
        (true, flushed.1, step.2 ++ flushed.2)
  else if linkType.isPeripheralInward then
    match r.outboundParcels.setFinalSequenceLength sequenceLength with
    | none =>
        (r.outboundParcels.finalLength.isSome ∧
           (r.outboundParcels.finalLength.map
              (fun F => decide (F ≤ sequenceLength))).getD false,
          r, [])
    | some q =>
        let flushed := Router.flush { r with outboundParcels := q }
        (true, flushed.1, flushed.2)
  else if linkType.isBridge then
    match r.outboundParcels.setFinalSequenceLength sequenceLength with
    | none => (false, r, [])
    | some q =>
        let flushed :=
          Router.flush { r with outboundParcels := q, bridge := none }
        (true, flushed.1, flushed.2)
  else
    let flushed := Router.flush r
    (true, flushed.1, flushed.2)

/-- `Router::AcceptRouteDisconnectedFrom(link_type)` from
`src/unnamed/part_001:341`: force-terminate the affected direction, wipe
all remaining links and forward the disconnection over each of them, then
flush. -/
def acceptRouteDisconnectedFrom (r : Router) (linkType : LinkTypeM) :
    Bool × Router × List Event :=
  let outQ :=
    if linkType.isPeripheralInward then
      r.outboundParcels.forceTerminateSequence
    else r.outboundParcels
  let inQ :=
    if linkType.isPeripheralInward then r.inboundParcels
    else r.inboundParcels.forceTerminateSequence
  let ow1 := r.outwardEdge.releasePrimaryLink
  let ow2 := ow1.2.releaseDecayingLink
  let part : List (Option RouterLink) × Router × List Event :=
    match r.inwardEdge with
    | some ie =>
        let iw1 := ie.releasePrimaryLink
        let iw2 := iw1.2.releaseDecayingLink
        ([ow1.1, ow2.1, iw1.1, iw2.1],
          { r with
              isDisconnected := true
              outboundParcels := outQ
              inboundParcels := inQ
              outwardEdge := ow2.2
              inwardEdge := some iw2.2 },
          ([] : List Event))
    | none =>
        match r.bridge with
        | some b =>
            let b1 := b.releasePrimaryLink
            let b2 := b1.2.releaseDecayingLink
            ([ow1.1, ow2.1, b1.1, b2.1],
              { r with
                  isDisconnected := true
                  outboundParcels := outQ
                  inboundParcels := inQ
                  outwardEdge := ow2.2
                  bridge := some b2.2 }, [])
        | none =>
            -- Terminal router: may have trap events to fire.
            ([ow1.1, ow2.1],
              { r with
                  isDisconnected := true
                  outboundParcels := outQ
                  inboundParcels := inQ
                  outwardEdge := ow2.2
                  peerClosed := true
                  dead := r.dead || inQ.isSequenceFullyConsumed },
              [Event.trapUpdate .peerClosed])
  let evForward :=
    (part.1.filterMap id).flatMap (fun l =>
      [Event.acceptRouteDisconnected l.lid, Event.deactivate l.lid])
  let flushed := Router.flush part.2.1
  (true, flushed.1, part.2.2 ++ evForward ++ flushed.2)

/-- Result of `Router::GetNextInboundParcel`: the status code, the updated
router, the final contents of the caller's `*num_bytes` / `*num_handles`
outputs (`none` models a null pointer) and the emitted events. -/
structure GetResult where
  result : IpczResult
  router : Router
  outNumBytes : Option Nat
  outNumHandles : Option Nat
  events : List Event
  deriving DecidableEq, Repr

/-- `Router::GetNextInboundParcel(flags, data, num_bytes, handles,
num_handles)` from `src/unnamed/part_001:412`.  `allowPartial` models
`flags & IPCZ_GET_PARTIAL`; `numBytes` / `numHandles` model the capacity
pointers (`none` = null). -/
def getNextInboundParcel (r : Router) (allowPartial : Bool)
    (numBytes numHandles : Option Nat) : GetResult :=
  if r.inboundParcels.isSequenceFullyConsumed then
    ⟨.notFound, r, numBytes, numHandles, []⟩
  else if ¬ r.inboundParcels.hasNextElement then
    ⟨.unavailable, r, numBytes, numHandles, []⟩
  else
    let p := r.inboundParcels.nextElement
    let dataCapacity := numBytes.getD 0
    let handlesCapacity := numHandles.getD 0
    let dataSize :=
      if allowPartial then min p.dataSize dataCapacity else p.dataSize
    let handlesSize :=
      if allowPartial then min p.numObjects handlesCapacity else p.numObjects
    let outNB := numBytes.map (fun _ => dataSize)
    let outNH := numHandles.map (fun _ => handlesSize)
    let consumingWholeParcel :=
      dataSize ≤ dataCapacity ∧ handlesSize ≤ handlesCapacity
    if ¬ consumingWholeParcel ∧ ¬ allowPartial then
      ⟨.resourceExhausted, r, outNB, outNH, []⟩
    else
      let q := (r.inboundParcels.consume dataSize handlesSize).getD
        r.inboundParcels
      let nP := q.getNumAvailableElements
      let nB := q.getTotalAvailableElementSize
      let r' : Router :=
        { r with
            inboundParcels := q
            numLocalParcels := nP
            numLocalBytes := nB
            dead := r.dead || q.isSequenceFullyConsumed }
      let evs := [Event.trapUpdate .localParcelConsumed]
      let evs :=
        match r'.outwardEdge.primaryLink with
        | some l =>
            if l.linkType.isCentral then
              evs ++ [Event.updateInboundQueueState l.lid nP nB] ++
                (if l.state.peerMonitoring then
                  [Event.notifyDataConsumed l.lid]
                else [])
            else evs
        | none => evs
      ⟨.ok, r', outNB, outNH, evs⟩

/-- `Router::CommitGetNextIncomingParcel(num_data_bytes_consumed, handles)`
from `src/unnamed/part_001:507`. -/
def commitGetNextIncomingParcel (r : Router)
    (numDataBytesConsumed numHandles : Nat) : IpczResult × Router × List Event :=
  if r.inwardEdge.isSome then
    (.invalidArgument, r, [])
  else if ¬ r.inboundParcels.hasNextElement then
    (.invalidArgument, r, [])
  else
    let p := r.inboundParcels.nextElement
    if p.dataSize < numDataBytesConsumed ∨ p.numObjects < numHandles then
      (.outOfRange, r, [])
    else
      let q := (r.inboundParcels.consume numDataBytesConsumed
        numHandles).getD r.inboundParcels
      let nP := q.getNumAvailableElements
      let nB := q.getTotalAvailableElementSize
      let r' : Router :=
        { r with
            inboundParcels := q
            numLocalParcels := nP
            numLocalBytes := nB
            dead := r.dead || q.isSequenceFullyConsumed }
      let evs := [Event.trapUpdate .localParcelConsumed]
      let evs :=
        match r'.outwardEdge.primaryLink with
        | some l =>
            if l.linkType.isCentral then
              evs ++ [Event.updateInboundQueueState l.lid nP nB] ++
                (if l.state.peerMonitoring then
                  [Event.notifyDataConsumed l.lid]
                else [])
            else evs
        | none => evs
      (.ok, r', evs)

/-- `Router::MergeRoute(other)` from `src/unnamed/part_001:599`.  `newLid`
names the freshly created local bridge link pair. -/
def mergeRoute (r other : Router) (newLid : Nat) :
    IpczResult × Router × Router × List Event :=
  if r.hasLocalPeer other ∨ r.rid = other.rid then
    (.invalidArgument, r, other, [])
  else if r.inwardEdge.isSome ∨ other.inwardEdge.isSome ∨ r.bridge.isSome ∨
      other.bridge.isSome then
    -- It's not legal to call this on non-terminal routers.
    (.invalidArgument, r, other, [])
  else if 0 < r.inboundParcels.current ∨
      0 < r.outboundParcels.getCurrentSequenceLength ∨
      0 < other.inboundParcels.current ∨
      0 < other.outboundParcels.getCurrentSequenceLength then
    -- Not legal once a router has transmitted or retrieved any parcel.
    (.failedPrecondition, r, other, [])
  else
    let first : RouterLink :=
      { lid := newLid, linkType := .bridge, side := .A,
        state := RouterLinkState.init, localPeer := some other.rid }
    let second : RouterLink :=
      { lid := newLid, linkType := .bridge, side := .B,
        state := RouterLinkState.init, localPeer := some r.rid }
    let r1 := { r with bridge := some (RouteEdge.init.setPrimaryLink first) }
    let other1 :=
      { other with bridge := some (RouteEdge.init.setPrimaryLink second) }
    let flushed := Router.flush r1
    (.ok, flushed.1, other1, flushed.2)

end Router

/-- The slice of a `NodeLink` the Router interacts with: the monotonic
sublink-id allocator and the sublink table (`node_link.cc` models the table
as a map keyed by `SublinkId`; only the key set matters to the modelled
operations). -/
structure NodeLink where
  nextSublink : Nat
  sublinks : List Nat
  deriving DecidableEq, Repr

namespace NodeLink

/-- `NodeLinkMemory::AllocateSublinkIds(1)`: atomically take the next id. -/
def allocateSublinkId (nl : NodeLink) : Nat × NodeLink :=
  (nl.nextSublink, { nl with nextSublink := nl.nextSublink + 1 })

/-- `NodeLink::AddRemoteRouterLink(sublink, type, side, router)` from
`src/src/ipcz/node_link.cc:62`: create a remote link for `sublink` and
register it; fails (returns `none`) exactly when the sublink id is already
in use. -/
def addRemoteRouterLink (nl : NodeLink) (sublink : Nat) (type : LinkTypeM)
    (side : LinkSide) : Option RouterLink × NodeLink :=
  if sublink ∈ nl.sublinks then
    (none, nl)
  else
    (some { lid := sublink, linkType := type, side := side,
            state := RouterLinkState.init, localPeer := none },
      { nl with sublinks := sublink :: nl.sublinks })

/-- `NodeLink::GetSublink(sublink)`: the registered remote link, if any
(reconstructed from its id; remote links carry no local peer). -/
def getSublink (nl : NodeLink) (sublink : Nat) (type : LinkTypeM)
    (side : LinkSide) : Option RouterLink :=
  if sublink ∈ nl.sublinks then
    some { lid := sublink, linkType := type, side := side,
           state := RouterLinkState.init, localPeer := none }
  else none

end NodeLink

/-- `RouterDescriptor`: the serialized form of a router endpoint. -/
structure RouterDescriptor where
  newSublink : Nat
  nextOutgoingSequenceNumber : Nat
  nextIncomingSequenceNumber : Nat
  peerClosed : Bool
  closedPeerSequenceLength : Nat
  deriving DecidableEq, Repr

namespace Router

/-- `Router::SerializeNewRouter(to_node_link, descriptor)` from
`src/unnamed/part_001:682`: reserve a sublink, clear traps, record the next
outgoing/incoming sequence numbers, install an empty inward edge (making
this router a proxy-in-waiting) and pre-decay it when the peer is already
known closed.  The tentative inward `RemoteRouterLink` is registered on the
NodeLink but not yet adopted by this router. -/
def serializeNewRouter (r : Router) (nl : NodeLink) :
    Router × RouterDescriptor × NodeLink :=
  let alloc := nl.allocateSublinkId
  let newSublink := alloc.1
  let nl1 := alloc.2
  let nextOutgoing := r.outboundParcels.getCurrentSequenceLength
  let nextIncoming := r.inboundParcels.current
  let descriptor0 : RouterDescriptor :=
    { newSublink := newSublink
      nextOutgoingSequenceNumber := nextOutgoing
      nextIncomingSequenceNumber := nextIncoming
      peerClosed := false
      closedPeerSequenceLength := 0 }
  let ie0 := RouteEdge.init
  let part : RouteEdge × RouterDescriptor :=
    if r.peerClosed then
      -- The new edge will decay its link as soon as it has one, since the
      -- link will never be used.
      let F := (r.inboundParcels.finalLength).getD 0
      let ie := ((ie0.beginPrimaryLinkDecay).getD ie0
        |>.setLengthToDecayingLink F
        |>.setLengthFromDecayingLink r.outboundParcels.current)
      (ie, { descriptor0 with
               peerClosed := true, closedPeerSequenceLength := F })
    else (ie0, descriptor0)
  let reg := nl1.addRemoteRouterLink newSublink .peripheralInward .A
  ({ r with numTraps := 0, inwardEdge := some part.1 }, part.2, reg.2)

/-- `Router::Deserialize(descriptor, from_node_link)` from
`src/unnamed/part_001:635`: build a terminal router from the descriptor,
apply recorded peer-closed state, attach a fresh peripheral-outward remote
link (or run the route-disconnected path when the sublink cannot be
registered and the peer is not known closed), then flush with
`kForceProxyBypassAttempt`.  Returns `none` exactly where the source
returns `nullptr`. -/
def deserialize (rid : Nat) (descriptor : RouterDescriptor) (nl : NodeLink) :
    Option Router × NodeLink × List Event :=
  let r1 : Router :=
    { Router.fresh rid with
        outboundParcels := ParcelQueue.init.resetInitialSequenceNumber
          descriptor.nextOutgoingSequenceNumber
        inboundParcels := ParcelQueue.init.resetInitialSequenceNumber
          descriptor.nextIncomingSequenceNumber }
  let closedStep : Option Router :=
    if descriptor.peerClosed then
      let r2 := { r1 with peerClosed := true }
      match r2.inboundParcels.setFinalSequenceLength
          descriptor.closedPeerSequenceLength with
      | none => none
      | some q =>
          some { r2 with
                   inboundParcels := q
                   dead := r2.dead || q.isSequenceFullyConsumed }
    else some r1
  match closedStep with
  | none => (none, nl, [])
  | some r3 =>
      let reg := nl.addRemoteRouterLink descriptor.newSublink
        .peripheralOutward .B
      let nl1 := reg.2
      let linked : Router × Bool :=
        match reg.1 with
        | some newLink =>
            ({ r3 with outwardEdge := r3.outwardEdge.setPrimaryLink newLink },
              false)
        | none =>
            -- The new portal is DOA unless the peer was already closed.
            (r3, ¬ descriptor.peerClosed)
      let disc : Router × List Event :=
        if linked.2 then
          let d := (linked.1).acceptRouteDisconnectedFrom .peripheralOutward
          (d.2.1, d.2.2)
        else (linked.1, [])
      let flushed := Router.flush disc.1 true
      (some flushed.1, nl1, disc.2 ++ flushed.2)

/-- `Router::BeginProxyingToNewRouter(to_node_link, descriptor)` from
`src/unnamed/part_001:734`: adopt the tentative inward link reserved by
`serializeNewRouter` unless this router has been closed or disconnected in
the meantime, in which case the link is discarded; then flush with
`kForceProxyBypassAttempt`. -/
def beginProxyingToNewRouter (r : Router) (nl : NodeLink)
    (descriptor : RouterDescriptor) : Router × List Event :=
  match nl.getSublink descriptor.newSublink .peripheralInward .A with
  | some newRouterLink =>
      if ¬ r.outboundParcels.finalLength.isSome ∧ ¬ r.isDisconnected then
        let ie := (r.inwardEdge.getD RouteEdge.init).setPrimaryLink
          newRouterLink
        let r1 := { r with inwardEdge := some ie }
        let r2 : Router :=
          match r1.outwardEdge.primaryLink with
          | some ol =>
              if r1.outwardEdge.isStable ∧ ie.isStable then
                { r1 with outwardEdge :=
                    { r1.outwardEdge with
                        primaryLink := some ol.markSideStable } }
              else r1
          | none => r1
        -- The link was adopted (moved), so the discard branch is skipped.
        let flushed := Router.flush r2 true
        (flushed.1, flushed.2)
      else
        -- The link was not adopted; deactivate and discard it, no flush.
        (r, [Event.acceptRouteDisconnected newRouterLink.lid,
             Event.deactivate newRouterLink.lid])
  | none =>
      let flushed := Router.flush r true
      (flushed.1, flushed.2)

/-- `Router::NotifyLinkDisconnected(link)` from
`src/unnamed/part_001:1083`: clear whichever slot holds the disconnected
link, then run the route-disconnected path for the matching direction. -/
def notifyLinkDisconnected (r : Router) (link : RouterLink) :
    Router × List Event :=
  let r1 :=
    if r.outwardEdge.primaryLink.map RouterLink.lid = some link.lid then
      { r with outwardEdge := (r.outwardEdge.releasePrimaryLink).2 }
    else if r.outwardEdge.decayingLink.map RouterLink.lid = some link.lid then
      { r with outwardEdge := (r.outwardEdge.releaseDecayingLink).2 }
    else
      match r.inwardEdge with
      | some ie =>
          if ie.primaryLink.map RouterLink.lid = some link.lid then
            { r with inwardEdge := some (ie.releasePrimaryLink).2 }
          else if ie.decayingLink.map RouterLink.lid = some link.lid then
            { r with inwardEdge := some (ie.releaseDecayingLink).2 }
          else r
      | none => r
  let disc := r1.acceptRouteDisconnectedFrom
    (if link.linkType.isOutward then .peripheralOutward else .peripheralInward)
  (disc.2.1, disc.2.2)

end Router

/-- One mutating Router operation, as dispatched to the embedded state
machine.  Arguments carried by a step model the operation's inputs
(parcels, link types, capacities, collaborating routers and node links). -/
inductive Step where
  | send (p : Parcel)
  | close
  | acceptInbound (p : Parcel)
  | acceptOutbound (p : Parcel)
  | acceptClosure (lt : LinkTypeM) (n : Nat)
  | acceptDisconnected (lt : LinkTypeM)
  | getNext (allowPartial : Bool) (numBytes numHandles : Option Nat)
  | commitGet (nb nh : Nat)
  | doFlush (force : Bool)
  | merge (other : Router) (newLid : Nat)
  | serialize (nl : NodeLink)
  | beginProxying (nl : NodeLink) (d : RouterDescriptor)
  | linkDisconnected (l : RouterLink)

/-- Apply a `Step` to a router, projecting the router's successor state. -/
def Step.apply (s : Step) (r : Router) : Router :=
  match s with
  | .send p => (r.sendOutboundParcel p).2.2.1
  | .close => r.closeRoute.1
  | .acceptInbound p => (r.acceptInboundParcel p).2.1
  | .acceptOutbound p => (r.acceptOutboundParcel p).2.1
  | .acceptClosure lt n => (r.acceptRouteClosureFrom lt n).2.1
  | .acceptDisconnected lt => (r.acceptRouteDisconnectedFrom lt).2.1
  | .getNext ap nb nh => (r.getNextInboundParcel ap nb nh).router
  | .commitGet nb nh => (r.commitGetNextIncomingParcel nb nh).2.1
  | .doFlush f => (r.flush f).1
  | .merge other lid => (Router.mergeRoute r other lid).2.1
  | .serialize nl => (r.serializeNewRouter nl).1
  | .beginProxying nl d => (r.beginProxyingToNewRouter nl d).1
  | .linkDisconnected l => (r.notifyLinkDisconnected l).1

/-! Concrete fixtures used to instantiate the theorems below. -/

/-- A three-byte parcel with no attached objects. -/
def parcel0 : Parcel := { seq := 0, dataSize := 3, numObjects := 0 }

/-- A terminal router with both status flags already set. -/
def flaggedRouter : Router :=
  { Router.fresh 0 with peerClosed := true, dead := true }

/-- A terminal router whose peer is gone: the inbound sequence was
finalized at length 0. -/
def peerGoneRouter : Router :=
  { Router.fresh 0 with
      inboundParcels := { current := 0, entries := [], finalLength := some 0 } }

/-- A stable, unlocked central link with id 7 (side A). -/
def centralStableLink : RouterLink :=
  { lid := 7, linkType := .central, side := .A,
    state := { sideStableA := true, sideStableB := true, lockedBy := none,
               peerMonitoring := false },
    localPeer := none }

/-- A terminal router on a stable central link whose outbound sequence was
closed at length 2 and fully sent. -/
def closureReadyRouter : Router :=
  { Router.fresh 1 with
      outwardEdge := { RouteEdge.init with primaryLink := some centralStableLink }
      outboundParcels := { current := 2, entries := [], finalLength := some 2 } }

/-- A terminal router with one queued inbound parcel of 5 bytes and
2 attached objects. -/
def queuedInboundRouter : Router :=
  { Router.fresh 5 with
      inboundParcels :=
        { current := 0,
          entries := [(0, { seq := 0, dataSize := 5, numObjects := 2 })],
          finalLength := none } }

/-- A terminal router whose inbound queue recorded a final length of 3. -/
def inboundClosedRouter : Router :=
  { Router.fresh 2 with
      inboundParcels := { current := 0, entries := [], finalLength := some 3 } }

/-- A router that has already transmitted one outbound parcel (its outbound
sequence length is 1). -/
def trafficRouter : Router :=
  { Router.fresh 3 with
      outboundParcels := { current := 1, entries := [], finalLength := none } }

/-- A router mid-route with four parcels sent and two received, ready for
serialization. -/
def transferSrcRouter : Router :=
  { Router.fresh 6 with
      outboundParcels := { current := 4, entries := [], finalLength := none }
      inboundParcels := { current := 2, entries := [], finalLength := none } }

theorem ParcelQueue.lookup_mem (q : ParcelQueue) (n : Nat) (p : Parcel)
    (h : q.lookup n = some p) : (n, p) ∈ q.entries := by
  unfold ParcelQueue.lookup at h
  cases hf : q.entries.find? (fun e => e.1 = n) with
  | none => rw [hf] at h; simp at h
  | some e =>
      rw [hf] at h
      have hmem := List.mem_of_find?_eq_some hf
      have hkey := List.find?_some hf
      simp only [decide_eq_true_eq] at hkey
      simp only [Option.map, Option.some.injEq] at h
      cases e with
      | mk k v =>
          simp only at hkey h
          subst hkey
          subst h
          exact hmem

theorem ParcelQueue.not_hasNext_of_fullyConsumed (q : ParcelQueue)
    (hwf : q.WF) (h : q.isSequenceFullyConsumed = true) :
    q.hasNextElement = false := by
  unfold ParcelQueue.isSequenceFullyConsumed at h
  cases hF : q.finalLength with
  | none => rw [hF] at h; simp at h
  | some F =>
      rw [hF] at h
      simp only [decide_eq_true_eq] at h
      unfold ParcelQueue.hasNextElement
      cases hl : q.lookup q.current with
      | none => rfl
      | some p =>
          exfalso
          have hmem := q.lookup_mem _ _ hl
          have hlt := (hwf.2 F hF).2 _ hmem
          have hge := hwf.1 _ hmem
          simp only at hlt hge
          omega

theorem ParcelQueue.pop_finalLength (q q' : ParcelQueue) (p : Parcel)
    (h : q.pop = some (p, q')) : q'.finalLength = q.finalLength := by
  unfold ParcelQueue.pop at h
  cases hl : q.lookup q.current with
  | none => rw [hl] at h; simp at h
  | some v => rw [hl] at h; cases h; rfl

theorem collectGo_fst_finalLength (e : RouteEdge) :
    ∀ (fuel : Nat) (q : ParcelQueue) (acc : List (Nat × Parcel)),
      (collectGo e fuel q acc).1.finalLength = q.finalLength := by
  intro fuel
  induction fuel with
  | zero => intro q acc; rfl
  | succ n ih =>
      intro q acc
      unfold collectGo
      split
      · split
        · split
          · next p q' hpop =>
              rw [ih]
              exact q.pop_finalLength q' p hpop
          · rfl
        · rfl
      · rfl

theorem collectGo_of_not_hasNext (e : RouteEdge) (fuel : Nat)
    (q : ParcelQueue) (acc : List (Nat × Parcel))
    (h : q.hasNextElement = false) : collectGo e fuel q acc = (q, acc) := by
  cases fuel with
  | zero => rfl
  | succ n => unfold collectGo; simp [h]

theorem collectParcelsToFlush_of_not_hasNext (q : ParcelQueue) (e : RouteEdge)
    (h : q.hasNextElement = false) : collectParcelsToFlush q e = (q, []) :=
  collectGo_of_not_hasNext e q.entries.length q [] h

theorem Router.flush_peerClosed (r : Router) (b : Bool) :
    (r.flush b).1.peerClosed = r.peerClosed := rfl

theorem Router.flush_dead (r : Router) (b : Bool) :
    (r.flush b).1.dead = r.dead := rfl

theorem Router.flush_isDisconnected (r : Router) (b : Bool) :
    (r.flush b).1.isDisconnected = r.isDisconnected := rfl

theorem Router.flush_outboundParcels (r : Router) (b : Bool) :
    (r.flush b).1.outboundParcels =
      (collectParcelsToFlush r.outboundParcels r.outwardEdge).1 := rfl

theorem Router.flushInwardPart_fst_finalLength (r : Router)
    (outQ : ParcelQueue) :
    (r.flushInwardPart outQ).1.finalLength = r.inboundParcels.finalLength := by
  unfold Router.flushInwardPart
  split
  · exact collectGo_fst_finalLength _ _ _ _
  · split
    · exact collectGo_fst_finalLength _ _ _ _
    · rfl

theorem Router.flush_inbound_finalLength (r : Router) (b : Bool) :
    (r.flush b).1.inboundParcels.finalLength =
      r.inboundParcels.finalLength := by
  show (r.flushInwardPart
      (collectParcelsToFlush r.outboundParcels
        r.outwardEdge).1).1.finalLength = r.inboundParcels.finalLength
  exact r.flushInwardPart_fst_finalLength _

theorem Router.flushInwardPart_of_terminal (r : Router) (outQ : ParcelQueue)
    (hie : r.inwardEdge = none) (hbr : r.bridge = none) :
    r.flushInwardPart outQ = (r.inboundParcels, [], none, false) := by
  unfold Router.flushInwardPart
  rw [hie]
  unfold Router.flushBridgeLink
  rw [hbr]
  rfl

theorem Router.flush_inboundParcels_of_terminal (r : Router) (b : Bool)
    (hie : r.inwardEdge = none) (hbr : r.bridge = none) :
    (r.flush b).1.inboundParcels = r.inboundParcels := by
  show (r.flushInwardPart
      (collectParcelsToFlush r.outboundParcels r.outwardEdge).1).1 =
    r.inboundParcels
  rw [r.flushInwardPart_of_terminal _ hie hbr]

theorem Router.sendOutboundParcel_flags (r : Router) (p : Parcel) :
    (r.sendOutboundParcel p).2.2.1.peerClosed = r.peerClosed ∧
      (r.sendOutboundParcel p).2.2.1.dead = r.dead := by
  unfold Router.sendOutboundParcel
  split
  · exact ⟨rfl, rfl⟩
  · constructor
    · dsimp only
      split
      · rfl
      · exact Router.flush_peerClosed _ _
    · dsimp only
      split
      · rfl
      · exact Router.flush_dead _ _

theorem Router.closeRoute_flags (r : Router) :
    r.closeRoute.1.peerClosed = r.peerClosed ∧
      r.closeRoute.1.dead = r.dead :=
  ⟨Router.flush_peerClosed _ _, Router.flush_dead _ _⟩

theorem Router.acceptInboundParcel_flags (r : Router) (p : Parcel) :
    (r.acceptInboundParcel p).2.1.peerClosed = r.peerClosed ∧
      (r.acceptInboundParcel p).2.1.dead = r.dead := by
  unfold Router.acceptInboundParcel
  split
  · exact ⟨rfl, rfl⟩
  · constructor
    · dsimp only
      rw [Router.flush_peerClosed]
      split
      · split
        · split
          · rfl
          · rfl
        · rfl
      · rfl
    · dsimp only
      rw [Router.flush_dead]
      split
      · split
        · split
          · rfl
          · rfl
        · rfl
      · rfl

theorem Router.acceptOutboundParcel_flags (r : Router) (p : Parcel) :
    (r.acceptOutboundParcel p).2.1.peerClosed = r.peerClosed ∧
      (r.acceptOutboundParcel p).2.1.dead = r.dead := by
  unfold Router.acceptOutboundParcel
  split
  · exact ⟨rfl, rfl⟩
  · exact ⟨Router.flush_peerClosed _ _, Router.flush_dead _ _⟩

theorem Router.acceptRouteClosureFrom_flags (r : Router) (lt : LinkTypeM)
    (n : Nat) :
    (r.peerClosed = true →
      (r.acceptRouteClosureFrom lt n).2.1.peerClosed = true) ∧
      (r.dead = true → (r.acceptRouteClosureFrom lt n).2.1.dead = true) := by
  unfold Router.acceptRouteClosureFrom
  split
  · split
    · exact ⟨fun h => h, fun h => h⟩
    · constructor
      · intro h
        dsimp only
        rw [Router.flush_peerClosed]
        split
        · rfl
        · exact h
      · intro h
        dsimp only
        rw [Router.flush_dead]
        split
        · simp [h]
        · exact h
  · split
    · split
      · exact ⟨fun h => h, fun h => h⟩
      · constructor
        · intro h; dsimp only; rw [Router.flush_peerClosed]; exact h
        · intro h; dsimp only; rw [Router.flush_dead]; exact h
    · split
      · split
        · exact ⟨fun h => h, fun h => h⟩
        · constructor
          · intro h; dsimp only; rw [Router.flush_peerClosed]; exact h
          · intro h; dsimp only; rw [Router.flush_dead]; exact h
      · constructor
        · intro h; dsimp only; rw [Router.flush_peerClosed]; exact h
        · intro h; dsimp only; rw [Router.flush_dead]; exact h

theorem Router.acceptRouteDisconnectedFrom_flags (r : Router)
    (lt : LinkTypeM) :
    (r.peerClosed = true →
      (r.acceptRouteDisconnectedFrom lt).2.1.peerClosed = true) ∧
      (r.dead = true →
        (r.acceptRouteDisconnectedFrom lt).2.1.dead = true) := by
  unfold Router.acceptRouteDisconnectedFrom
  constructor
  · intro h
    dsimp only
    rw [Router.flush_peerClosed]
    split
    · exact h
    · split
      · exact h
      · rfl
  · intro h
    dsimp only
    rw [Router.flush_dead]
    split
    · exact h
    · split
      · exact h
      · dsimp only
        rw [h]
        rfl

theorem Router.getNextInboundParcel_flags (r : Router) (ap : Bool)
    (nb nh : Option Nat) :
    (r.peerClosed = true →
      (r.getNextInboundParcel ap nb nh).router.peerClosed = true) ∧
      (r.dead = true →
        (r.getNextInboundParcel ap nb nh).router.dead = true) := by
  unfold Router.getNextInboundParcel
  constructor
  · intro h
    dsimp only
    repeat' split
    all_goals exact h
  · intro h
    dsimp only
    repeat' split
    all_goals first
      | exact h
      | (dsimp only; rw [h]; rfl)

theorem Router.commitGetNextIncomingParcel_flags (r : Router) (nb nh : Nat) :
    (r.peerClosed = true →
      (r.commitGetNextIncomingParcel nb nh).2.1.peerClosed = true) ∧
      (r.dead = true →
        (r.commitGetNextIncomingParcel nb nh).2.1.dead = true) := by
  unfold Router.commitGetNextIncomingParcel
  constructor
  · intro h
    dsimp only
    repeat' split
    all_goals exact h
  · intro h
    dsimp only
    repeat' split
    all_goals first
      | exact h
      | (dsimp only; rw [h]; rfl)

theorem Router.mergeRoute_flags (r other : Router) (lid : Nat) :
    (Router.mergeRoute r other lid).2.1.peerClosed = r.peerClosed ∧
      (Router.mergeRoute r other lid).2.1.dead = r.dead := by
  unfold Router.mergeRoute
  split
  · exact ⟨rfl, rfl⟩
  · split
    · exact ⟨rfl, rfl⟩
    · split
      · exact ⟨rfl, rfl⟩
      · constructor
        · dsimp only; rw [Router.flush_peerClosed]
        · dsimp only; rw [Router.flush_dead]

theorem Router.serializeNewRouter_flags (r : Router) (nl : NodeLink) :
    (r.serializeNewRouter nl).1.peerClosed = r.peerClosed ∧
      (r.serializeNewRouter nl).1.dead = r.dead :=
  ⟨rfl, rfl⟩

theorem Router.beginProxyingToNewRouter_flags (r : Router) (nl : NodeLink)
    (d : RouterDescriptor) :
    (r.beginProxyingToNewRouter nl d).1.peerClosed = r.peerClosed ∧
      (r.beginProxyingToNewRouter nl d).1.dead = r.dead := by
  unfold Router.beginProxyingToNewRouter
  split
  · split
    · constructor
      · dsimp only
        rw [Router.flush_peerClosed]
        split
        · split
          · rfl
          · rfl
        · rfl
      · dsimp only
        rw [Router.flush_dead]
        split
        · split
          · rfl
          · rfl
        · rfl
    · exact ⟨rfl, rfl⟩
  · exact ⟨Router.flush_peerClosed _ _, Router.flush_dead _ _⟩

theorem Router.notifyLinkDisconnected_flags (r : Router) (l : RouterLink) :
    (r.peerClosed = true →
      (r.notifyLinkDisconnected l).1.peerClosed = true) ∧
      (r.dead = true → (r.notifyLinkDisconnected l).1.dead = true) := by
  unfold Router.notifyLinkDisconnected
  constructor
  · intro h
    dsimp only
    refine (Router.acceptRouteDisconnectedFrom_flags _ _).1 ?_
    repeat' split
    all_goals exact h
  · intro h
    dsimp only
    refine (Router.acceptRouteDisconnectedFrom_flags _ _).2 ?_
    repeat' split
    all_goals exact h

theorem Router.sendOutboundParcel_fst_eq (r : Router) (p : Parcel) :
    (r.sendOutboundParcel p).1 =
      (if r.inboundParcels.finalLength.isSome then IpczResult.notFound
       else IpczResult.ok) := by
  unfold Router.sendOutboundParcel
  split
  · next h => simp [h]
  · next h =>
      dsimp only
      split
      · simp only [Bool.not_eq_true] at h
        simp [h]
      · simp only [Bool.not_eq_true] at h
        simp [h]

theorem Router.sendOutboundParcel_assignedSeq (r : Router) (p : Parcel)
    (h : r.inboundParcels.finalLength.isSome = false) :
    (r.sendOutboundParcel p).2.1 =
      some r.outboundParcels.getCurrentSequenceLength := by
  unfold Router.sendOutboundParcel
  split
  · next hc => simp [h] at hc
  · dsimp only
    split <;> rfl

/-- C3 (confirmed): `send_outbound_parcel` returns NotFound if and only if
the inbound parcel queue has a final sequence length set at the time of the
call; otherwise it assigns the parcel the next outbound SequenceNumber (the
current length of the outbound sequence) and returns OK. -/
theorem send_notFound_iff_inbound_finalized (r : Router) (p : Parcel) :
    ((r.sendOutboundParcel p).1 = IpczResult.notFound ↔
        r.inboundParcels.finalLength.isSome = true) ∧
      (r.inboundParcels.finalLength.isSome = false →
        (r.sendOutboundParcel p).1 = IpczResult.ok ∧
          (r.sendOutboundParcel p).2.1 =
            some r.outboundParcels.getCurrentSequenceLength) := by
  refine ⟨?_, fun h => ⟨?_, Router.sendOutboundParcel_assignedSeq r p h⟩⟩
  · rw [Router.sendOutboundParcel_fst_eq]
    cases hf : r.inboundParcels.finalLength.isSome <;> simp [hf]
  · rw [Router.sendOutboundParcel_fst_eq, h]
    rfl

/-- C3 witness: a freshly created router accepts its first send, assigning
sequence number 0. -/
theorem send_notFound_iff_inbound_finalized_witness :
    ((Router.fresh 0).sendOutboundParcel parcel0).1 = IpczResult.ok ∧
      ((Router.fresh 0).sendOutboundParcel parcel0).2.1 = some 0 := by
  have h := (send_notFound_iff_inbound_finalized (Router.fresh 0) parcel0).2
    (by decide)
  exact ⟨h.1, h.2.trans (by decide)⟩

/-- C1 counterexample: on a freshly created terminal router whose peer has
not closed, `close_route()` followed by `send_outbound_parcel` returns OK,
not NotFound — `SendOutboundParcel` only tests the *inbound* queue's final
sequence length, which `CloseRoute` does not touch. -/
theorem closeRoute_then_send_returns_ok :
    ((Router.fresh 0).closeRoute.1.sendOutboundParcel parcel0).1 =
        IpczResult.ok ∧
      ¬ ((Router.fresh 0).closeRoute.1.sendOutboundParcel parcel0).1 =
        IpczResult.notFound := by decide

/-- C1 (amended): after `close_route()` has returned, a subsequent
`send_outbound_parcel` returns NotFound if and only if the *inbound*
sequence has a final length recorded (the peer closed or the route was
disconnected); local closure alone does not make subsequent sends return
NotFound. -/
theorem closeRoute_send_notFound_iff (r : Router) (p : Parcel) :
    ((r.closeRoute.1).sendOutboundParcel p).1 = IpczResult.notFound ↔
      r.inboundParcels.finalLength.isSome = true := by
  unfold Router.closeRoute
  dsimp only
  rw [Router.sendOutboundParcel_fst_eq, Router.flush_inbound_finalLength]
  dsimp only
  cases hf : r.inboundParcels.finalLength.isSome <;> simp [hf]

/-- C1 witness for the amended claim: with the peer's closure recorded
(inbound finalized at 0), a send after close_route returns NotFound. -/
theorem closeRoute_send_notFound_iff_witness :
    ((peerGoneRouter.closeRoute.1).sendOutboundParcel parcel0).1 =
      IpczResult.notFound :=
  (closeRoute_send_notFound_iff peerGoneRouter parcel0).mpr (by decide)

/-- C2 (confirmed): once the `peer_closed` status flag is set it is never
cleared by any subsequent (modelled) Router operation, and once the `dead`
status flag is set it is never cleared: both flags are monotonic across
every step of the Router state machine. -/
theorem status_flags_monotonic (s : Step) (r : Router) :
    (r.peerClosed = true → (s.apply r).peerClosed = true) ∧
      (r.dead = true → (s.apply r).dead = true) := by
  cases s with
  | send p =>
      exact ⟨fun h => ((Router.sendOutboundParcel_flags r p).1).trans h,
        fun h => ((Router.sendOutboundParcel_flags r p).2).trans h⟩
  | close =>
      exact ⟨fun h => ((Router.closeRoute_flags r).1).trans h,
        fun h => ((Router.closeRoute_flags r).2).trans h⟩
  | acceptInbound p =>
      exact ⟨fun h => ((Router.acceptInboundParcel_flags r p).1).trans h,
        fun h => ((Router.acceptInboundParcel_flags r p).2).trans h⟩
  | acceptOutbound p =>
      exact ⟨fun h => ((Router.acceptOutboundParcel_flags r p).1).trans h,
        fun h => ((Router.acceptOutboundParcel_flags r p).2).trans h⟩
  | acceptClosure lt n => exact Router.acceptRouteClosureFrom_flags r lt n
  | acceptDisconnected lt =>
      exact Router.acceptRouteDisconnectedFrom_flags r lt
  | getNext ap nb nh => exact Router.getNextInboundParcel_flags r ap nb nh
  | commitGet nb nh => exact Router.commitGetNextIncomingParcel_flags r nb nh
  | doFlush f =>
      exact ⟨fun h => (Router.flush_peerClosed r f).trans h,
        fun h => (Router.flush_dead r f).trans h⟩
  | merge other lid =>
      exact ⟨fun h => ((Router.mergeRoute_flags r other lid).1).trans h,
        fun h => ((Router.mergeRoute_flags r other lid).2).trans h⟩
  | serialize nl =>
      exact ⟨fun h => ((Router.serializeNewRouter_flags r nl).1).trans h,
        fun h => ((Router.serializeNewRouter_flags r nl).2).trans h⟩
  | beginProxying nl d =>
      exact ⟨fun h =>
          ((Router.beginProxyingToNewRouter_flags r nl d).1).trans h,
        fun h => ((Router.beginProxyingToNewRouter_flags r nl d).2).trans h⟩
  | linkDisconnected l => exact Router.notifyLinkDisconnected_flags r l

/-- C2 witness: a router with both flags set keeps them set across a
close_route step. -/
theorem status_flags_monotonic_witness :
    ((Step.close).apply flaggedRouter).peerClosed = true ∧
      ((Step.close).apply flaggedRouter).dead = true :=
  ⟨(status_flags_monotonic Step.close flaggedRouter).1 (by decide),
    (status_flags_monotonic Step.close flaggedRouter).2 (by decide)⟩

/-- C7 (confirmed): with a final inbound length `F` already recorded, a
repeated accept_route_closure_from on an outward link with length `L` is
rejected (returns failure) iff `L < F`, and silently accepted (returns
success) iff `F ≤ L`; in either repeat case the router state — and in
particular the recorded final length — is unchanged. -/
theorem repeat_route_closure_spec (r : Router) (lt : LinkTypeM) (F L : Nat)
    (ho : lt.isOutward = true)
    (hF : r.inboundParcels.finalLength = some F) :
    ((r.acceptRouteClosureFrom lt L).1 = false ↔ L < F) ∧
      ((r.acceptRouteClosureFrom lt L).1 = true ↔ F ≤ L) ∧
      (r.acceptRouteClosureFrom lt L).2.1 = r := by
  have hset : r.inboundParcels.setFinalSequenceLength L = none := by
    unfold ParcelQueue.setFinalSequenceLength
    simp [hF]
  unfold Router.acceptRouteClosureFrom
  rw [if_pos ho]
  rw [hset]
  refine ⟨?_, ?_, rfl⟩
  · simp [hF]
  · simp [hF]

/-- C7 witness: with final inbound length 3 recorded, a repeat at 2 is
rejected and a repeat at 5 is accepted. -/
theorem repeat_route_closure_spec_witness :
    (inboundClosedRouter.acceptRouteClosureFrom .peripheralOutward 2).1 =
        false ∧
      (inboundClosedRouter.acceptRouteClosureFrom .peripheralOutward 5).1 =
        true :=
  ⟨(repeat_route_closure_spec inboundClosedRouter .peripheralOutward 3 2
      (by decide) (by decide)).1.mpr (by decide),
    (repeat_route_closure_spec inboundClosedRouter .peripheralOutward 3 5
      (by decide) (by decide)).2.1.mpr (by decide)⟩

/-- C8 counterexample: merging with a router that has already transmitted a
parcel (outbound sequence length 1) is rejected with FailedPrecondition,
not InvalidArgument as the claim states. -/
theorem merge_traffic_not_invalid_argument :
    (Router.mergeRoute trafficRouter (Router.fresh 4) 9).1 =
        IpczResult.failedPrecondition ∧
      ¬ (Router.mergeRoute trafficRouter (Router.fresh 4) 9).1 =
        IpczResult.invalidArgument := by decide

/-- C8 (amended): merge_route is rejected with InvalidArgument when the two
routers are identical or local peers, or when either already has an inward
edge or bridge; it is rejected with FailedPrecondition (not
InvalidArgument) when either router has transmitted or received any
non-zero sequence number; when none of these conditions hold it returns OK
and installs a local bridge link pair between the two routers (this
router's side is then flushed). -/
theorem mergeRoute_spec (r other : Router) (lid : Nat) :
    ((r.hasLocalPeer other = true ∨ r.rid = other.rid ∨
        r.inwardEdge.isSome = true ∨ other.inwardEdge.isSome = true ∨
        r.bridge.isSome = true ∨ other.bridge.isSome = true) →
      (Router.mergeRoute r other lid).1 = IpczResult.invalidArgument) ∧
    (¬ (r.hasLocalPeer other = true ∨ r.rid = other.rid) →
      ¬ (r.inwardEdge.isSome = true ∨ other.inwardEdge.isSome = true ∨
          r.bridge.isSome = true ∨ other.bridge.isSome = true) →
      (0 < r.inboundParcels.current ∨
        0 < r.outboundParcels.getCurrentSequenceLength ∨
        0 < other.inboundParcels.current ∨
        0 < other.outboundParcels.getCurrentSequenceLength) →
      (Router.mergeRoute r other lid).1 = IpczResult.failedPrecondition) ∧
    (¬ (r.hasLocalPeer other = true ∨ r.rid = other.rid) →
      ¬ (r.inwardEdge.isSome = true ∨ other.inwardEdge.isSome = true ∨
          r.bridge.isSome = true ∨ other.bridge.isSome = true) →
      ¬ (0 < r.inboundParcels.current ∨
          0 < r.outboundParcels.getCurrentSequenceLength ∨
          0 < other.inboundParcels.current ∨
          0 < other.outboundParcels.getCurrentSequenceLength) →
      (Router.mergeRoute r other lid).1 = IpczResult.ok ∧
        (Router.mergeRoute r other lid).2.1 =
          (Router.flush { r with bridge := some (RouteEdge.init.setPrimaryLink
            { lid := lid, linkType := .bridge, side := .A,
              state := RouterLinkState.init,
              localPeer := some other.rid }) }).1 ∧
        (Router.mergeRoute r other lid).2.2.1 =
          { other with bridge := some (RouteEdge.init.setPrimaryLink
            { lid := lid, linkType := .bridge, side := .B,
              state := RouterLinkState.init, localPeer := some r.rid }) }) := by
  unfold Router.mergeRoute
  refine ⟨?_, ?_, ?_⟩
  · intro h
    rcases h with h | h | h | h | h | h
    · rw [if_pos (Or.inl h)]
    · rw [if_pos (Or.inr h)]
    all_goals
      by_cases h1 : r.hasLocalPeer other = true ∨ r.rid = other.rid
      · rw [if_pos h1]
      · rw [if_neg h1]
        rw [if_pos (by tauto)]
  · intro h1 h2 h3
    rw [if_neg h1, if_neg h2, if_pos h3]
  · intro h1 h2 h3
    rw [if_neg h1, if_neg h2, if_neg h3]
    exact ⟨rfl, rfl, rfl⟩

/-- C8 witness for the amended claim: two fresh, unrelated routers merge
successfully and both carry a bridge to the other afterwards. -/
theorem mergeRoute_spec_witness :
    (Router.mergeRoute (Router.fresh 3) (Router.fresh 4) 9).1 =
        IpczResult.ok ∧
      (Router.mergeRoute (Router.fresh 3) (Router.fresh 4)
          9).2.2.1.bridge.isSome = true := by
  have h := (mergeRoute_spec (Router.fresh 3) (Router.fresh 4) 9).2.2
    (by decide) (by decide) (by decide)
  refine ⟨h.1, ?_⟩
  rw [h.2.2]
  decide

/-- C9 (confirmed): when get_next_inbound_parcel fails with
ResourceExhausted (caller capacity too small and the partial-get flag not
set), the router — its inbound queue, status flags and queued counts — is
unchanged, but the caller's *num_bytes and *num_handles outputs have
already been overwritten with the head parcel's full data size and object
count. -/
theorem getNext_resource_exhausted_outputs (r : Router) (b h : Nat)
    (hfull : r.inboundParcels.isSequenceFullyConsumed = false)
    (hnext : r.inboundParcels.hasNextElement = true)
    (hcap : b < r.inboundParcels.nextElement.dataSize ∨
      h < r.inboundParcels.nextElement.numObjects) :
    (r.getNextInboundParcel false (some b) (some h)).result =
        IpczResult.resourceExhausted ∧
      (r.getNextInboundParcel false (some b) (some h)).router = r ∧
      (r.getNextInboundParcel false (some b) (some h)).outNumBytes =
        some r.inboundParcels.nextElement.dataSize ∧
      (r.getNextInboundParcel false (some b) (some h)).outNumHandles =
        some r.inboundParcels.nextElement.numObjects := by
  unfold Router.getNextInboundParcel
  rw [if_neg (by rw [hfull]; exact Bool.false_ne_true)]
  rw [if_neg (by rw [hnext]; simp)]
  dsimp only
  rw [if_pos]
  · exact ⟨rfl, rfl, rfl, rfl⟩
  · refine ⟨?_, by decide⟩
    simp only [if_neg (by decide : ¬ false = true), Option.getD_some]
    intro hcon
    rcases hcap with hb | hh
    · omega
    · omega

/-- C4 (confirmed): on a terminal router, get_next_inbound_parcel returns
NotFound when the inbound sequence is fully consumed; otherwise Unavailable
when the parcel at the current sequence number is not yet queued; otherwise
ResourceExhausted when partial consumption was not requested and a caller
capacity is smaller than the head parcel's data size or object count;
otherwise it consumes from the head parcel, updates num_local_parcels and
num_local_bytes, sets the dead flag exactly when the sequence just became
fully consumed, fires the LocalParcelConsumed trap update, and returns
OK. -/
theorem getNextInboundParcel_spec (r : Router) (ap : Bool)
    (nb nh : Option Nat) (_hterm : r.inwardEdge = none) :
    (r.inboundParcels.isSequenceFullyConsumed = true →
      (r.getNextInboundParcel ap nb nh).result = IpczResult.notFound ∧
        (r.getNextInboundParcel ap nb nh).router = r) ∧
    (r.inboundParcels.isSequenceFullyConsumed = false →
      r.inboundParcels.hasNextElement = false →
      (r.getNextInboundParcel ap nb nh).result = IpczResult.unavailable ∧
        (r.getNextInboundParcel ap nb nh).router = r) ∧
    (r.inboundParcels.isSequenceFullyConsumed = false →
      r.inboundParcels.hasNextElement = true →
      ap = false →
      (nb.getD 0 < r.inboundParcels.nextElement.dataSize ∨
        nh.getD 0 < r.inboundParcels.nextElement.numObjects) →
      (r.getNextInboundParcel ap nb nh).result =
          IpczResult.resourceExhausted ∧
        (r.getNextInboundParcel ap nb nh).router = r) ∧
    (r.inboundParcels.isSequenceFullyConsumed = false →
      r.inboundParcels.hasNextElement = true →
      (ap = true ∨
        (r.inboundParcels.nextElement.dataSize ≤ nb.getD 0 ∧
          r.inboundParcels.nextElement.numObjects ≤ nh.getD 0)) →
      (r.getNextInboundParcel ap nb nh).result = IpczResult.ok ∧
        (r.getNextInboundParcel ap nb nh).router.inboundParcels =
          (r.inboundParcels.consume
            (if ap then min r.inboundParcels.nextElement.dataSize (nb.getD 0)
             else r.inboundParcels.nextElement.dataSize)
            (if ap then
               min r.inboundParcels.nextElement.numObjects (nh.getD 0)
             else r.inboundParcels.nextElement.numObjects)).getD
            r.inboundParcels ∧
        (r.getNextInboundParcel ap nb nh).router.numLocalParcels =
          (r.getNextInboundParcel ap nb
            nh).router.inboundParcels.getNumAvailableElements ∧
        (r.getNextInboundParcel ap nb nh).router.numLocalBytes =
          (r.getNextInboundParcel ap nb
            nh).router.inboundParcels.getTotalAvailableElementSize ∧
        (r.getNextInboundParcel ap nb nh).router.dead =
          (r.dead || (r.getNextInboundParcel ap nb
            nh).router.inboundParcels.isSequenceFullyConsumed) ∧
        Event.trapUpdate UpdateReason.localParcelConsumed ∈
          (r.getNextInboundParcel ap nb nh).events) := by
  refine ⟨?_, ?_, ?_, ?_⟩
  · intro h1
    unfold Router.getNextInboundParcel
    rw [if_pos h1]
    exact ⟨rfl, rfl⟩
  · intro h1 h2
    unfold Router.getNextInboundParcel
    rw [if_neg (by rw [h1]; exact Bool.false_ne_true)]
    rw [if_pos (by rw [h2]; simp)]
    exact ⟨rfl, rfl⟩
  · intro h1 h2 hap hcap
    subst hap
    unfold Router.getNextInboundParcel
    rw [if_neg (by rw [h1]; exact Bool.false_ne_true)]
    rw [if_neg (by rw [h2]; simp)]
    dsimp only
    rw [if_pos]
    · exact ⟨rfl, rfl⟩
    · refine ⟨?_, by decide⟩
      simp only [if_neg (by decide : ¬ false = true)]
      intro hcon
      rcases hcap with hb | hh
      · omega
      · omega
  · intro h1 h2 hok
    unfold Router.getNextInboundParcel
    rw [if_neg (by rw [h1]; exact Bool.false_ne_true)]
    rw [if_neg (by rw [h2]; simp)]
    dsimp only
    cases ap with
    | true =>
        rw [if_neg (by rintro ⟨-, hn⟩; exact hn rfl)]
        refine ⟨rfl, rfl, rfl, rfl, rfl, ?_⟩
        dsimp only
        split
        · split
          · simp
          · simp
        · simp
    | false =>
        rcases hok with hap | ⟨hd, hh⟩
        · exact absurd hap (by decide)
        · rw [if_neg]
          · refine ⟨rfl, rfl, rfl, rfl, rfl, ?_⟩
            dsimp only
            split
            · split
              · simp
              · simp
            · simp
          · rintro ⟨hncon, -⟩
            apply hncon
            constructor
            · simpa using hd
            · simpa using hh

/-- C4 witness: the whole 5-byte, 2-object parcel is consumed with exact
capacities, leaving an empty local queue. -/
theorem getNextInboundParcel_spec_witness :
    (queuedInboundRouter.getNextInboundParcel false (some 5)
        (some 2)).result = IpczResult.ok ∧
      (queuedInboundRouter.getNextInboundParcel false (some 5)
        (some 2)).router.numLocalParcels = 0 := by
  have hw := (getNextInboundParcel_spec queuedInboundRouter false (some 5)
    (some 2) (by decide)).2.2.2 (by decide) (by decide)
    (Or.inr ⟨by decide, by decide⟩)
  refine ⟨hw.1, ?_⟩
  rw [hw.2.2.1, hw.2.1]
  decide

theorem RouterLink.tryLockForClosure_of_stable (l : RouterLink)
    (hsA : l.state.sideStableA = true) (hsB : l.state.sideStableB = true)
    (hlock : l.state.lockedBy = none) :
    l.tryLockForClosure =
      some { l with state := { l.state with lockedBy := some l.side } } := by
  unfold RouterLink.tryLockForClosure RouterLinkState.tryLock
  rw [if_pos ⟨hsA, hsB, by rw [hlock]; rfl⟩]
  rfl

theorem RouterLink.markSideStable_state (l : RouterLink)
    (hsA : l.state.sideStableA = true) (hsB : l.state.sideStableB = true) :
    (l.markSideStable).state =
      { l.state with sideStableA := true, sideStableB := true } := by
  unfold RouterLink.markSideStable RouterLinkState.setSideStable
  cases l.side
  · rw [← hsB]
  · rw [← hsA]

theorem RouterLink.markSideStable_lid (l : RouterLink) :
    (l.markSideStable).lid = l.lid := rfl

/-- C5 (confirmed): during Flush on a router whose outward primary link is
a central link, if the outbound sequence is fully consumed (a final length
is set and every parcel up to it has been sent) and try_lock_for_closure on
the outward link succeeds (both sides stable, lock free), then Flush
releases the outward primary link, sends route_closure carrying the final
outbound sequence length over that released link, and deactivates it. -/
theorem flush_closure_spec (r : Router) (l : RouterLink) (F : Nat) (b : Bool)
    (hl : r.outwardEdge.primaryLink = some l)
    (hc : l.linkType.isCentral = true)
    (hwf : r.outboundParcels.WF)
    (hfull : r.outboundParcels.isSequenceFullyConsumed = true)
    (hF : r.outboundParcels.finalLength = some F)
    (hsA : l.state.sideStableA = true) (hsB : l.state.sideStableB = true)
    (hlock : l.state.lockedBy = none) :
    (r.flush b).1.outwardEdge.primaryLink = none ∧
      Event.acceptRouteClosure l.lid F ∈ (r.flush b).2 ∧
      Event.deactivate l.lid ∈ (r.flush b).2 := by
  have hnext := r.outboundParcels.not_hasNext_of_fullyConsumed hwf hfull
  have houtq := collectParcelsToFlush_of_not_hasNext r.outboundParcels
    r.outwardEdge hnext
  have hmsA : (l.markSideStable).state.sideStableA = true := by
    rw [RouterLink.markSideStable_state l hsA hsB]
  have hmsB : (l.markSideStable).state.sideStableB = true := by
    rw [RouterLink.markSideStable_state l hsA hsB]
  have hmsL : (l.markSideStable).state.lockedBy = none := by
    rw [RouterLink.markSideStable_state l hsA hsB]; exact hlock
  have hlk := RouterLink.tryLockForClosure_of_stable l hsA hsB hlock
  have hlkms := RouterLink.tryLockForClosure_of_stable l.markSideStable
    hmsA hmsB hmsL
  unfold Router.flush
  rw [hl, houtq]
  dsimp only [Option.map_some', Option.getD_some]
  rw [hfull, hc, hF]
  by_cases hms :
      (true &&
          ((r.flushInwardPart r.outboundParcels).2.2.2 ||
            (r.outwardEdge.maybeFinishDecay r.outboundParcels.current
                r.inboundParcels.getCurrentSequenceLength).2) &&
        (((r.inwardEdge.bind RouteEdge.decayingLink).isNone ||
            (r.flushInwardPart r.outboundParcels).2.2.2) &&
          ((some l).isSome &&
            (r.outwardEdge.decayingLink.isNone ||
              (r.outwardEdge.maybeFinishDecay r.outboundParcels.current
                  r.inboundParcels.getCurrentSequenceLength).2)))) = true
  · simp only [hms, if_pos rfl, Option.map_some', if_true]
    rw [if_pos (by trivial)]
    rw [hlkms]
    dsimp only
    refine ⟨rfl, ?_, ?_⟩ <;> simp [RouterLink.markSideStable]
  · simp only [if_neg hms]
    rw [if_pos (by trivial)]
    rw [hlk]
    dsimp only
    refine ⟨rfl, ?_, ?_⟩ <;> simp

/-- C5 witness: a closed, fully-sent terminal router on a stable central
link (id 7, final outbound length 2) drops the link and emits the closure
and deactivation calls. -/
theorem flush_closure_spec_witness :
    (closureReadyRouter.flush false).1.outwardEdge.primaryLink = none ∧
      Event.acceptRouteClosure 7 2 ∈ (closureReadyRouter.flush false).2 ∧
      Event.deactivate 7 ∈ (closureReadyRouter.flush false).2 :=
  flush_closure_spec closureReadyRouter centralStableLink 2 false
    (by decide) (by decide) (by decide) (by decide) (by decide) (by decide)
    (by decide) (by decide)

theorem ParcelQueue.setFinal_fresh (n F : Nat) :
    (ParcelQueue.init.resetInitialSequenceNumber n).setFinalSequenceLength F =
      (if F < n then none
       else some { current := n, entries := [], finalLength := some F }) := by
  unfold ParcelQueue.init ParcelQueue.resetInitialSequenceNumber
    ParcelQueue.setFinalSequenceLength
  by_cases h : F < n
  · simp [h]
  · simp [h]

theorem ParcelQueue.push_lt_none (q : ParcelQueue) (n : Nat) (p : Parcel)
    (h : n < q.current) : q.push n p = none := by
  unfold ParcelQueue.push
  rw [if_pos h]

theorem Router.acceptRouteDisconnectedFrom_isDisconnected (r : Router)
    (lt : LinkTypeM) :
    (r.acceptRouteDisconnectedFrom lt).2.1.isDisconnected = true := by
  unfold Router.acceptRouteDisconnectedFrom
  dsimp only
  rw [Router.flush_isDisconnected]
  split
  · rfl
  · split
    · rfl
    · rfl

theorem Router.deserialize_fields (rid : Nat) (d : RouterDescriptor)
    (nl : NodeLink) (hmem : d.newSublink ∉ nl.sublinks)
    (hok : d.peerClosed = true →
      d.nextIncomingSequenceNumber ≤ d.closedPeerSequenceLength) :
    ∃ r', (Router.deserialize rid d nl).1 = some r' ∧
      r'.inboundParcels =
        { current := d.nextIncomingSequenceNumber, entries := [],
          finalLength := if d.peerClosed then
            some d.closedPeerSequenceLength else none } ∧
      r'.outboundParcels =
        { current := d.nextOutgoingSequenceNumber, entries := [],
          finalLength := none } ∧
      r'.peerClosed = d.peerClosed := by
  unfold Router.deserialize
  dsimp only
  by_cases hpc : d.peerClosed = true
  · rw [if_pos hpc]
    rw [ParcelQueue.setFinal_fresh]
    rw [if_neg (by have := hok hpc; omega)]
    dsimp only
    unfold NodeLink.addRemoteRouterLink
    rw [if_neg hmem]
    dsimp only
    rw [if_neg (show ¬ false = true by decide)]
    refine ⟨_, rfl, ?_, ?_, ?_⟩
    · rw [if_pos hpc]; rfl
    · rfl
    · rw [Router.flush_peerClosed, hpc]
  · rw [if_neg hpc]
    dsimp only
    unfold NodeLink.addRemoteRouterLink
    rw [if_neg hmem]
    dsimp only
    rw [if_neg (show ¬ false = true by decide)]
    refine ⟨_, rfl, ?_, ?_, ?_⟩
    · rw [if_neg hpc]; rfl
    · rfl
    · rw [Router.flush_peerClosed]
      simp only [Bool.not_eq_true] at hpc
      rw [hpc]
      rfl

theorem Router.serializeNewRouter_descriptor (r : Router) (nl : NodeLink) :
    (r.serializeNewRouter nl).2.1 =
      { newSublink := nl.nextSublink
        nextOutgoingSequenceNumber :=
          r.outboundParcels.getCurrentSequenceLength
        nextIncomingSequenceNumber := r.inboundParcels.current
        peerClosed := r.peerClosed
        closedPeerSequenceLength :=
          if r.peerClosed then r.inboundParcels.finalLength.getD 0
          else 0 } := by
  unfold Router.serializeNewRouter
  dsimp only
  by_cases hpc : r.peerClosed = true
  · rw [if_pos hpc, if_pos hpc, hpc]
    rfl
  · rw [if_neg hpc, if_neg hpc]
    simp only [Bool.not_eq_true] at hpc
    rw [hpc]
    rfl

/-- C10 (confirmed): Deserialize returns null exactly when the descriptor
has peer_closed set and setting the inbound queue's final sequence length
to closed_peer_sequence_length fails (the recorded length precedes
next_incoming_sequence_number); in every other case it returns a router,
and when the new sublink cannot be registered on the originating NodeLink
while peer_closed is not set, the returned router is put through the
route-disconnected path rather than being null. -/
theorem deserialize_null_iff (rid : Nat) (d : RouterDescriptor)
    (nl : NodeLink) :
    ((Router.deserialize rid d nl).1 = none ↔
        (d.peerClosed = true ∧
          d.closedPeerSequenceLength < d.nextIncomingSequenceNumber)) ∧
      (d.newSublink ∈ nl.sublinks → d.peerClosed = false →
        ∃ r', (Router.deserialize rid d nl).1 = some r' ∧
          r'.isDisconnected = true) := by
  constructor
  · unfold Router.deserialize
    dsimp only
    by_cases hpc : d.peerClosed = true
    · rw [if_pos hpc, ParcelQueue.setFinal_fresh]
      by_cases hlt : d.closedPeerSequenceLength <
          d.nextIncomingSequenceNumber
      · rw [if_pos hlt]
        simp [hpc, hlt]
      · rw [if_neg hlt]
        dsimp only
        simp [hpc, hlt]
    · rw [if_neg hpc]
      dsimp only
      simp [hpc]
  · intro hmem hpc
    unfold Router.deserialize
    dsimp only
    rw [if_neg (by rw [hpc]; exact Bool.false_ne_true)]
    dsimp only
    unfold NodeLink.addRemoteRouterLink
    rw [if_pos hmem]
    dsimp only
    rw [if_pos (by rw [hpc]; decide)]
    refine ⟨_, rfl, ?_⟩
    rw [Router.flush_isDisconnected]
    dsimp only
    exact Router.acceptRouteDisconnectedFrom_isDisconnected _ _

/-- C10 witness: a fresh descriptor with peer_closed unset and an already
occupied sublink id yields a non-null router on the disconnected path;
conversely a peer_closed descriptor whose final length precedes the next
incoming sequence number yields null. -/
theorem deserialize_null_iff_witness :
    (∃ r', (Router.deserialize 7
          { newSublink := 0, nextOutgoingSequenceNumber := 0,
            nextIncomingSequenceNumber := 0, peerClosed := false,
            closedPeerSequenceLength := 0 }
          { nextSublink := 1, sublinks := [0] }).1 = some r' ∧
        r'.isDisconnected = true) ∧
      (Router.deserialize 7
          { newSublink := 0, nextOutgoingSequenceNumber := 4,
            nextIncomingSequenceNumber := 2, peerClosed := true,
            closedPeerSequenceLength := 1 }
          { nextSublink := 1, sublinks := [] }).1 = none :=
  ⟨(deserialize_null_iff 7 _ _).2 (by decide) (by decide),
    (deserialize_null_iff 7 _ _).1.mpr ⟨by decide, by decide⟩⟩

/-- C6 (confirmed): round-trip of serialization. After
serialize_new_router(A) records a descriptor and deserialize of that
descriptor creates router A', A' accepts new inbound parcels starting
exactly at the descriptor's next_incoming_sequence_number (which is A's
current inbound sequence number) and assigns outbound parcels starting
exactly at the descriptor's next_outgoing_sequence_number (A's current
outbound sequence length), with A's recorded peer-closed state — including
closed_peer_sequence_length — carried over when present. -/
theorem serialize_deserialize_roundtrip (r : Router) (nl nlRemote : NodeLink)
    (rid : Nat) (hwf : r.inboundParcels.WF)
    (hpcf : r.peerClosed = true → r.inboundParcels.finalLength.isSome = true)
    (hreg : nl.nextSublink ∉ nlRemote.sublinks) :
    (r.serializeNewRouter nl).2.1.nextIncomingSequenceNumber =
        r.inboundParcels.current ∧
      (r.serializeNewRouter nl).2.1.nextOutgoingSequenceNumber =
        r.outboundParcels.getCurrentSequenceLength ∧
      ∃ r',
        (Router.deserialize rid (r.serializeNewRouter nl).2.1 nlRemote).1 =
            some r' ∧
          r'.inboundParcels.current =
            (r.serializeNewRouter nl).2.1.nextIncomingSequenceNumber ∧
          r'.outboundParcels.getCurrentSequenceLength =
            (r.serializeNewRouter nl).2.1.nextOutgoingSequenceNumber ∧
          (∀ k p,
            k < (r.serializeNewRouter nl).2.1.nextIncomingSequenceNumber →
            r'.inboundParcels.push k p = none) ∧
          (r.peerClosed = false → ∀ p,
            (r'.inboundParcels.push
              (r.serializeNewRouter nl).2.1.nextIncomingSequenceNumber
              p).isSome = true) ∧
          (r.peerClosed = true → r'.peerClosed = true ∧
            r'.inboundParcels.finalLength =
              r.inboundParcels.finalLength) := by
  rw [Router.serializeNewRouter_descriptor]
  dsimp only
  have hok : (r.peerClosed : Bool) = true →
      r.inboundParcels.current ≤
        (if r.peerClosed then r.inboundParcels.finalLength.getD 0 else 0) := by
    intro hq
    obtain ⟨F, hF⟩ := Option.isSome_iff_exists.mp (hpcf hq)
    rw [if_pos hq, hF]
    exact ((hwf.2 F hF).1 : _)
  obtain ⟨r', hr', hin, hout, hpcr⟩ :=
    Router.deserialize_fields rid
      { newSublink := nl.nextSublink
        nextOutgoingSequenceNumber :=
          r.outboundParcels.getCurrentSequenceLength
        nextIncomingSequenceNumber := r.inboundParcels.current
        peerClosed := r.peerClosed
        closedPeerSequenceLength :=
          if r.peerClosed then r.inboundParcels.finalLength.getD 0 else 0 }
      nlRemote hreg (by intro hq; exact hok hq)
  refine ⟨rfl, rfl, r', hr', ?_, ?_, ?_, ?_, ?_⟩
  · rw [hin]
  · rw [hout]
    rfl
  · intro k p hk
    rw [hin]
    exact ParcelQueue.push_lt_none _ k p hk
  · intro hq p
    rw [hin]
    dsimp only at hq ⊢
    rw [hq]
    simp [ParcelQueue.push, ParcelQueue.lookup]
  · intro hq
    obtain ⟨F, hF⟩ := Option.isSome_iff_exists.mp (hpcf hq)
    refine ⟨by rw [hpcr]; exact hq, ?_⟩
    rw [hin]
    dsimp only
    simp [hq, hF]

/-- C6 witness: a router four parcels out and two in round-trips its
sequence positions through a descriptor. -/
theorem serialize_deserialize_roundtrip_witness :
    ∃ r', (Router.deserialize 7
          (transferSrcRouter.serializeNewRouter
            { nextSublink := 0, sublinks := [] }).2.1
          { nextSublink := 1, sublinks := [] }).1 = some r' ∧
        r'.inboundParcels.current = 2 ∧
        r'.outboundParcels.getCurrentSequenceLength = 4 := by
  obtain ⟨hin0, hout0, r', hr', hin, hout, -⟩ :=
    serialize_deserialize_roundtrip transferSrcRouter
      { nextSublink := 0, sublinks := [] } { nextSublink := 1, sublinks := [] }
      7 (by decide) (by decide) (by decide)
  exact ⟨r', hr', (hin.trans hin0).trans (by decide),
    (hout.trans hout0).trans (by decide)⟩

/-- C9 witness: a 5-byte, 2-object head parcel with capacities (3, 2)
yields ResourceExhausted, an unchanged router and outputs (5, 2). -/
theorem getNext_resource_exhausted_outputs_witness :
    (queuedInboundRouter.getNextInboundParcel false (some 3)
        (some 2)).result = IpczResult.resourceExhausted ∧
      (queuedInboundRouter.getNextInboundParcel false (some 3)
        (some 2)).outNumBytes = some 5 := by
  have hw := getNext_resource_exhausted_outputs queuedInboundRouter 3 2
    (by decide) (by decide) (by decide)
  exact ⟨hw.1, hw.2.2.1.trans (by decide)⟩

end Ipcz
